import Mathlib

/-!
Shallow embedding of the layout geometry engine and transition controller of
the 3D visualization app (src/js/visualization.js), together with theorems
settling the specification claims about it.

Conventions of the embedding:
- JS numbers are modelled as real numbers; every arithmetic step mirrors the
  source expression.
- `data.forEach((item, index) => ...)` is modelled by `mapWithIndex`.
- A Three.js `Object3D` target produced by a layout is a `Transform`: a
  position plus an optional look-at target point (set exactly when the source
  calls `object.lookAt(vector)`).
- The tween machinery is modelled by an explicit list of scheduled tweens;
  `Math.random()` is an injected stream of reals in `[0, 1)`.
-/

/-- A 3D vector with real components, standing for THREE.Vector3. -/
structure Vec3 where
  x : ℝ
  y : ℝ
  z : ℝ

/-- A layout target for one record: the position assigned by the layout and,
when the source invokes `object.lookAt(vector)`, the look-at target point. -/
structure Transform where
  position : Vec3
  lookTarget : Option Vec3

/-- Index-aware map, modelling `data.forEach((item, index) => ...)` collecting
one output per element, starting the index at `i`. -/
def mapWithIndexAux (f : ℕ → α → β) : ℕ → List α → List β
  | _, [] => []
  | i, a :: rest => f i a :: mapWithIndexAux f (i + 1) rest

/-- Index-aware map starting at index 0. -/
def mapWithIndex (f : ℕ → α → β) (l : List α) : List β :=
  mapWithIndexAux f 0 l

theorem mapWithIndexAux_length (f : ℕ → α → β) (i : ℕ) (l : List α) :
    (mapWithIndexAux f i l).length = l.length := by
  induction l generalizing i with
  | nil => rfl
  | cons a rest ih => simp [mapWithIndexAux, ih]

theorem mapWithIndex_length (f : ℕ → α → β) (l : List α) :
    (mapWithIndex f l).length = l.length :=
  mapWithIndexAux_length f 0 l

theorem mapWithIndexAux_const_eq (f : ℕ → β) (i : ℕ) (l1 : List α) (l2 : List γ)
    (h : l1.length = l2.length) :
    mapWithIndexAux (fun i _ => f i) i l1 = mapWithIndexAux (fun i _ => f i) i l2 := by
  induction l1 generalizing i l2 with
  | nil => cases l2 <;> simp_all [mapWithIndexAux]
  | cons a rest ih =>
      cases l2 with
      | nil => simp at h
      | cons b rest2 =>
          simp only [List.length_cons, Nat.succ.injEq] at h
          simp only [mapWithIndexAux, List.cons.injEq, true_and]
          exact ih (i + 1) rest2 h

/-- When the body ignores the element, the result depends only on the length. -/
theorem mapWithIndex_const_eq (f : ℕ → β) (l1 : List α) (l2 : List γ)
    (h : l1.length = l2.length) :
    mapWithIndex (fun i _ => f i) l1 = mapWithIndex (fun i _ => f i) l2 :=
  mapWithIndexAux_const_eq f 0 l1 l2 h

/-! ## Table layout (calculateTableLayout, 20 columns x 10 rows) -/

/-- Position for index `i` in the table layout: `col = i % 20`,
`row = i / 20`, `x = col*160 - (20*160)/2`, `y = -(row*180) + (10*180)/2`,
`z = 0`. -/
noncomputable def tablePosition (i : ℕ) : Vec3 :=
  ⟨(i % 20 : ℕ) * 160 - (20 * 160) / 2, -((i / 20 : ℕ) * 180) + (10 * 180) / 2, 0⟩

/-- The table layout target set: one transform per record, no orientation. -/
noncomputable def calculateTableLayout (data : List α) : List Transform :=
  mapWithIndex (fun i _ => ⟨tablePosition i, none⟩) data

/-! ## Sphere layout (calculateSphereLayout, radius 900) -/

/-- Inclination angle for index `i` of `n` records:
`phi = acos(-1 + 2*i/n)`. -/
noncomputable def spherePhi (n i : ℕ) : ℝ :=
  Real.arccos (-1 + (2 * i) / n)

/-- Azimuthal angle for index `i` of `n` records:
`theta = sqrt(n*pi) * phi`. -/
noncomputable def sphereTheta (n i : ℕ) : ℝ :=
  Real.sqrt (n * Real.pi) * spherePhi n i

/-- Position on the radius-900 sphere via spherical-to-Cartesian conversion. -/
noncomputable def spherePosition (n i : ℕ) : Vec3 :=
  ⟨900 * Real.cos (sphereTheta n i) * Real.sin (spherePhi n i),
   900 * Real.sin (sphereTheta n i) * Real.sin (spherePhi n i),
   900 * Real.cos (spherePhi n i)⟩

/-- Sphere target for one record: the position, looking at the position
scaled by 2 (`vector.copy(object.position).multiplyScalar(2)`). -/
noncomputable def sphereTransform (n i : ℕ) : Transform :=
  let p := spherePosition n i
  ⟨p, some ⟨p.x * 2, p.y * 2, p.z * 2⟩⟩

/-- The sphere layout target set. -/
noncomputable def calculateSphereLayout (data : List α) : List Transform :=
  mapWithIndex (fun i _ => sphereTransform data.length i) data

/-! ## Double helix layout (calculateHelixLayout, radius 700, spacing 30) -/

/-- Helix target for index `i`: strand `i % 2`, strand index `i / 2`,
`theta = strandIndex*0.15 + strand*pi`, `y = -(strandIndex*30) + 1250`,
`x = 700*cos(theta)`, `z = 700*sin(theta)`, looking at `(x*2, y, z*2)`. -/
noncomputable def helixTransform (i : ℕ) : Transform :=
  let strand : ℕ := i % 2
  let strandIndex : ℕ := i / 2
  let theta : ℝ := strandIndex * 0.15 + strand * Real.pi
  let y : ℝ := -((strandIndex : ℝ) * 30) + 1250
  let x : ℝ := 700 * Real.cos theta
  let z : ℝ := 700 * Real.sin theta
  ⟨⟨x, y, z⟩, some ⟨x * 2, y, z * 2⟩⟩

/-- The double helix layout target set. -/
noncomputable def calculateHelixLayout (data : List α) : List Transform :=
  mapWithIndex (fun i _ => helixTransform i) data

/-! ## 3D grid layout (calculateGridLayout, 10 x 4 x 5, cell 200) -/

/-- Position for index `i` in the grid layout: `x_idx = i % 10`,
`layer = i / 10`, `y_idx = layer / 5`, `z_idx = layer % 5`, each axis
centered as `idx*200 - (count*200)/2` with counts 10, 4, 5. -/
noncomputable def gridPosition (i : ℕ) : Vec3 :=
  ⟨(i % 10 : ℕ) * 200 - (10 * 200) / 2,
   (i / 10 / 5 : ℕ) * 200 - (4 * 200) / 2,
   (i / 10 % 5 : ℕ) * 200 - (5 * 200) / 2⟩

/-- The grid layout target set: one transform per record, no orientation. -/
noncomputable def calculateGridLayout (data : List α) : List Transform :=
  mapWithIndex (fun i _ => ⟨gridPosition i, none⟩) data

/-! ## Tetrahedron layout (calculateTetrahedronLayout, spacing 180, height 160) -/

/-- The running counters of the tetrahedron layout: current layer (starting
at 1), row within the layer, and column within the row. -/
structure TetraState where
  layer : ℕ
  row : ℕ
  col : ℕ
  deriving DecidableEq

/-- The advance rule applied before placing each record: if `col > row`
then `col = 0, row+1`; then if `row >= layer` then `row = 0, col = 0,
layer+1`. -/
def tetraAdvance (s : TetraState) : TetraState :=
  let s1 := if s.row < s.col then ⟨s.layer, s.row + 1, 0⟩ else s
  if s1.layer ≤ s1.row then ⟨s1.layer + 1, 0, 0⟩ else s1

/-- Placement of a record at counters `s`: `x = (col - row/2)*180`,
`z = (row - layer/2)*180`, `y = -(layer*160) + 600`, no orientation. -/
noncomputable def tetraPlace (s : TetraState) : Transform :=
  ⟨⟨((s.col : ℝ) - (s.row : ℝ) / 2) * 180,
    -((s.layer : ℝ) * 160) + 600,
    ((s.row : ℝ) - (s.layer : ℝ) / 2) * 180⟩, none⟩

/-- The sequence of counter values at which successive records are placed:
advance, record the state, then increment `col`, repeated `n` times. -/
def tetraPlacements : TetraState → ℕ → List TetraState
  | _, 0 => []
  | s, n + 1 =>
      let s2 := tetraAdvance s
      s2 :: tetraPlacements ⟨s2.layer, s2.row, s2.col + 1⟩ n

/-- The tetrahedron layout target set: the records are consumed in sequence
order, each placed at the current counters. -/
noncomputable def calculateTetrahedronLayout (data : List α) : List Transform :=
  (tetraPlacements ⟨1, 0, 0⟩ data.length).map tetraPlace

theorem tetraPlacements_length (s : TetraState) (n : ℕ) :
    (tetraPlacements s n).length = n := by
  induction n generalizing s with
  | zero => rfl
  | succ n ih => simp [tetraPlacements, ih]

/-! ## Transition controller (transform) and application state

The source method `transform(targets, duration)` first calls
`TWEEN.removeAll()`, then for each managed object in order looks up
`targets[index]` and starts a position tween and a rotation tween whose
durations are `Math.random() * duration + duration`, and finally starts one
driver tween of duration `duration * 2` whose update callback renders the
scene. An index beyond the end of `targets` yields `undefined`, and the
access `target.position` then throws, aborting the loop; tweens already
started stay scheduled, and the driver tween is never started. The method
never writes to any object transform itself.
-/

/-- A managed object: the live transform mutated by the animation driver. -/
structure Obj where
  position : Vec3
  rotation : Vec3

/-- Which interpolation a scheduled tween is. -/
inductive TweenKind
  | pos
  | rot
  | driver
  deriving DecidableEq

/-- One scheduled interpolation: its kind, the index of the object it
animates (0 for the driver tween), and its duration. -/
structure Tween where
  kind : TweenKind
  index : ℕ
  duration : ℝ

/-- Result of a `transform` call: the list of tweens now scheduled, the
object array (the method never mutates live transforms), and whether the
loop aborted with a thrown error. -/
structure TransformResult where
  tweens : List Tween
  objects : List Obj
  errored : Bool

/-- The per-object loop of `transform`: schedules a position tween and a
rotation tween per object/target pair, consuming two random draws per
object, and aborts with an error when an object has no target. -/
noncomputable def transformLoop (r : ℕ → ℝ) (d : ℝ) :
    ℕ → List Obj → List Transform → List Tween × Bool
  | _, [], _ => ([], false)
  | _, _ :: _, [] => ([], true)
  | i, _ :: objs, _ :: tgts =>
      let rest := transformLoop r d (i + 1) objs tgts
      (⟨.pos, i, r (2 * i) * d + d⟩ :: ⟨.rot, i, r (2 * i + 1) * d + d⟩ :: rest.1,
       rest.2)

/-- The `transform(targets, duration)` method: removes all pending tweens,
runs the per-object loop, and, when the loop completes, schedules the
render-driver tween of duration `duration * 2`. -/
noncomputable def transformRun (r : ℕ → ℝ) (objects : List Obj)
    (targets : List Transform) (d : ℝ) : TransformResult :=
  let res := transformLoop r d 0 objects targets
  if res.2 then ⟨res.1, objects, true⟩
  else ⟨res.1 ++ [⟨.driver, 0, d * 2⟩], objects, false⟩

/-- The five concurrently held layout target sets (`this.targets`). -/
structure Targets where
  table : List Transform
  sphere : List Transform
  helix : List Transform
  grid : List Transform
  tetrahedron : List Transform

/-- The mutable state of the visualization app that the claims concern:
the managed objects, the pending tweens, the five target sets, the active
layout name, and a record of the last `transform` invocation (its target
set and base duration). -/
structure AppState where
  objects : List Obj
  tweens : List Tween
  targets : Targets
  currentLayout : String
  lastCall : Option (List Transform × ℝ)

/-- Invoking `this.transform(targets, duration)` from the app: the scheduled
tween list replaces the previous one and the invocation is recorded. The
second component reports whether the call threw. -/
noncomputable def transformApply (r : ℕ → ℝ) (targets : List Transform) (d : ℝ)
    (st : AppState) : AppState × Bool :=
  let res := transformRun r st.objects targets d
  ({ st with tweens := res.tweens, lastCall := some (targets, d) }, res.errored)

/-- The `calculateLayouts(data)` method: computes all five target sets. -/
noncomputable def calculateLayouts (data : List α) : Targets :=
  ⟨calculateTableLayout data, calculateSphereLayout data, calculateHelixLayout data,
   calculateGridLayout data, calculateTetrahedronLayout data⟩

/-- The `createObjects(data)` method: replaces the managed objects with one
fresh object per record at a random position with each coordinate
`Math.random() * 4000 - 2000` (rotation initially zero), computes all five
layout target sets, and transforms to the table target set with base
duration 2000. The stream `r` supplies the position draws (three per
object) and `rt` the duration draws of the transform call. -/
noncomputable def createObjects (r rt : ℕ → ℝ) (data : List α) (st : AppState) :
    AppState × Bool :=
  let objs := mapWithIndex
    (fun i _ => Obj.mk
      ⟨r (3 * i) * 4000 - 2000, r (3 * i + 1) * 4000 - 2000, r (3 * i + 2) * 4000 - 2000⟩
      ⟨0, 0, 0⟩) data
  let tg : Targets := calculateLayouts data
  transformApply rt tg.table 2000 { st with objects := objs, targets := tg }

/-! ## Helper lemmas -/

theorem mapWithIndexAux_get? (f : ℕ → α → β) (j i : ℕ) (l : List α) :
    (mapWithIndexAux f j l).get? i = (l.get? i).map (f (j + i)) := by
  induction l generalizing j i with
  | nil => simp [mapWithIndexAux]
  | cons a rest ih =>
      cases i with
      | zero => simp [mapWithIndexAux]
      | succ i =>
          simp only [mapWithIndexAux, List.get?_cons_succ]
          rw [show j + (i + 1) = j + 1 + i from by omega]
          exact ih (j + 1) i

theorem mapWithIndex_get? (f : ℕ → α → β) (i : ℕ) (l : List α) :
    (mapWithIndex f l).get? i = (l.get? i).map (f i) := by
  have := mapWithIndexAux_get? f 0 i l
  simpa [mapWithIndex] using this

theorem mapWithIndexAux_mem (f : ℕ → α → β) (j : ℕ) (l : List α) (b : β)
    (hb : b ∈ mapWithIndexAux f j l) : ∃ i a, b = f i a := by
  induction l generalizing j with
  | nil => simp [mapWithIndexAux] at hb
  | cons a rest ih =>
      simp only [mapWithIndexAux, List.mem_cons] at hb
      rcases hb with h | h
      · exact ⟨j, a, h⟩
      · exact ih (j + 1) h

/-- A concrete managed object used for instantiating claims. -/
noncomputable def obj0 : Obj := ⟨⟨0, 0, 0⟩, ⟨0, 0, 0⟩⟩

/-- A concrete layout target used for instantiating claims. -/
noncomputable def target0 : Transform := ⟨⟨0, 0, 0⟩, none⟩

/-- The constantly zero random stream, used for instantiating claims. -/
noncomputable def zeroStream : ℕ → ℝ := fun _ => 0

/-- A concrete app state with no objects and empty target sets. -/
noncomputable def emptyState : AppState :=
  ⟨[], [], ⟨[], [], [], [], []⟩, "table", none⟩

/-! ## Claim C6 -/

/-- C6: for every record sequence and each of the five layout kinds, the
computed layout target set has exactly one transform per record. -/
theorem claim_C6_layout_lengths (α : Type) (data : List α) :
    (calculateTableLayout data).length = data.length ∧
    (calculateSphereLayout data).length = data.length ∧
    (calculateHelixLayout data).length = data.length ∧
    (calculateGridLayout data).length = data.length ∧
    (calculateTetrahedronLayout data).length = data.length := by
  refine ⟨?_, ?_, ?_, ?_, ?_⟩ <;>
    simp [calculateTableLayout, calculateSphereLayout, calculateHelixLayout,
      calculateGridLayout, calculateTetrahedronLayout, mapWithIndex_length,
      tetraPlacements_length]

/-! ## Claim C7 -/

/-- C7: layout computation depends only on ordinal index and total count:
two record sequences of equal length produce identical target sets under
all five layout functions. -/
theorem claim_C7_noninterference (α β : Type) (d1 : List α) (d2 : List β)
    (h : d1.length = d2.length) :
    calculateTableLayout d1 = calculateTableLayout d2 ∧
    calculateSphereLayout d1 = calculateSphereLayout d2 ∧
    calculateHelixLayout d1 = calculateHelixLayout d2 ∧
    calculateGridLayout d1 = calculateGridLayout d2 ∧
    calculateTetrahedronLayout d1 = calculateTetrahedronLayout d2 := by
  refine ⟨?_, ?_, ?_, ?_, ?_⟩
  · exact mapWithIndex_const_eq _ d1 d2 h
  · unfold calculateSphereLayout
    rw [h]
    exact mapWithIndex_const_eq _ d1 d2 h
  · exact mapWithIndex_const_eq _ d1 d2 h
  · exact mapWithIndex_const_eq _ d1 d2 h
  · unfold calculateTetrahedronLayout
    rw [h]

/-- Witness for C7 at two concrete sequences of different element types. -/
theorem claim_C7_witness :
    calculateTableLayout [0] = calculateTableLayout ["a"] ∧
    calculateSphereLayout [0] = calculateSphereLayout ["a"] ∧
    calculateHelixLayout [0] = calculateHelixLayout ["a"] ∧
    calculateGridLayout [0] = calculateGridLayout ["a"] ∧
    calculateTetrahedronLayout [0] = calculateTetrahedronLayout ["a"] :=
  claim_C7_noninterference ℕ String [0] ["a"] (by decide)

/-! ## Claim C9 -/

/-- C9: the table layout places record `i` at column `i % 20` and row
`i / 20` with `x = col*160 - 1600`, `y = -(row*180) + 900`, `z = 0` and no
orientation; within row 0 (indices below 20) `y` is the constant 900, `x`
increases by exactly 160 per step, and the first element sits at
`x = -(20*160)/2 = -1600`. -/
theorem claim_C9_table_layout (α : Type) (data : List α) (i : ℕ) :
    (calculateTableLayout data).get? i =
      (data.get? i).map (fun _ => ⟨tablePosition i, none⟩) ∧
    tablePosition i = ⟨(i % 20 : ℕ) * 160 - 1600, -((i / 20 : ℕ) * 180) + 900, 0⟩ ∧
    (i < 20 → (tablePosition i).y = 900) ∧
    (i + 1 < 20 → (tablePosition (i + 1)).x = (tablePosition i).x + 160) ∧
    (tablePosition 0).x = -1600 := by
  refine ⟨mapWithIndex_get? _ i data, ?_, ?_, ?_, ?_⟩
  · unfold tablePosition
    simp only [Vec3.mk.injEq]
    norm_num
  · intro hi
    unfold tablePosition
    simp [Nat.div_eq_of_lt hi]
    norm_num
  · intro hi
    unfold tablePosition
    have h1 : (i + 1) % 20 = i + 1 := Nat.mod_eq_of_lt hi
    have h2 : i % 20 = i := Nat.mod_eq_of_lt (by omega)
    simp only [h1, h2]
    push_cast
    ring
  · unfold tablePosition
    norm_num

/-- Witness for C9 at index 3 of a 20-record sequence. -/
theorem claim_C9_witness :
    (calculateTableLayout (List.range 20)).get? 3 =
      ((List.range 20).get? 3).map (fun _ => ⟨tablePosition 3, none⟩) ∧
    tablePosition 3 = ⟨(3 % 20 : ℕ) * 160 - 1600, -((3 / 20 : ℕ) * 180) + 900, 0⟩ ∧
    (3 < 20 → (tablePosition 3).y = 900) ∧
    (3 + 1 < 20 → (tablePosition (3 + 1)).x = (tablePosition 3).x + 160) ∧
    (tablePosition 0).x = -1600 :=
  claim_C9_table_layout ℕ (List.range 20) 3

/-! ## Claim C5 -/

/-- Recovery of the three per-axis indices from a produced grid position by
inverting the centering formula `coord = idx*200 - (count*200)/2` with the
per-axis counts 10, 4, 5 (stated from the specification, to be compared
with `gridPosition`). -/
noncomputable def gridRecover (p : Vec3) : ℝ × ℝ × ℝ :=
  ((p.x + (10 * 200) / 2) / 200,
   (p.y + (4 * 200) / 2) / 200,
   (p.z + (5 * 200) / 2) / 200)

/-- C5: inverting the centering formula on the grid position of record `i`
recovers exactly `(i % 10, (i / 10) / 5, (i / 10) % 5)`. -/
theorem claim_C5_grid_inversion (i : ℕ) :
    gridRecover (gridPosition i) =
      (((i % 10 : ℕ) : ℝ), ((i / 10 / 5 : ℕ) : ℝ), ((i / 10 % 5 : ℕ) : ℝ)) := by
  unfold gridRecover gridPosition
  simp only [Prod.mk.injEq]
  norm_num

/-! ## Claim C4 -/

/-- C4: with the advance rule applied before each placement and the column
incremented after, the first ten records are placed at exactly these
counters: record 0 on layer 1, records 1 to 3 on layer 2, records 4 to 9 on
layer 3 (layer sizes 1, 3, 6), and the resulting transforms follow
`x = (col - row/2)*180`, `z = (row - layer/2)*180`, `y = -(layer*160) + 600`. -/
theorem claim_C4_tetrahedron_n10 :
    tetraPlacements ⟨1, 0, 0⟩ 10 =
      [⟨1, 0, 0⟩, ⟨2, 0, 0⟩, ⟨2, 1, 0⟩, ⟨2, 1, 1⟩, ⟨3, 0, 0⟩,
       ⟨3, 1, 0⟩, ⟨3, 1, 1⟩, ⟨3, 2, 0⟩, ⟨3, 2, 1⟩, ⟨3, 2, 2⟩] ∧
    (tetraPlacements ⟨1, 0, 0⟩ 10).map TetraState.layer =
      [1, 2, 2, 2, 3, 3, 3, 3, 3, 3] ∧
    calculateTetrahedronLayout (List.range 10) =
      [⟨⟨0, 440, -90⟩, none⟩, ⟨⟨0, 280, -180⟩, none⟩, ⟨⟨-90, 280, 0⟩, none⟩,
       ⟨⟨90, 280, 0⟩, none⟩, ⟨⟨0, 120, -270⟩, none⟩, ⟨⟨-90, 120, -90⟩, none⟩,
       ⟨⟨90, 120, -90⟩, none⟩, ⟨⟨-180, 120, 90⟩, none⟩, ⟨⟨0, 120, 90⟩, none⟩,
       ⟨⟨180, 120, 90⟩, none⟩] := by
  have hp : tetraPlacements ⟨1, 0, 0⟩ 10 =
      [⟨1, 0, 0⟩, ⟨2, 0, 0⟩, ⟨2, 1, 0⟩, ⟨2, 1, 1⟩, ⟨3, 0, 0⟩,
       ⟨3, 1, 0⟩, ⟨3, 1, 1⟩, ⟨3, 2, 0⟩, ⟨3, 2, 1⟩, ⟨3, 2, 2⟩] := by decide
  refine ⟨hp, by decide, ?_⟩
  unfold calculateTetrahedronLayout
  rw [List.length_range, hp]
  simp only [List.map_cons, List.map_nil, tetraPlace, List.cons.injEq,
    Transform.mk.injEq, Vec3.mk.injEq, and_true]
  norm_num

/-! ## Claim C8 -/

/-- C8: every sphere layout position lies at Euclidean distance exactly 900
from the origin (which in particular is within any relative tolerance), and
the look-at target stored with it is the position scaled by 2. -/
theorem claim_C8_sphere_norm (n i : ℕ) :
    Real.sqrt ((spherePosition n i).x ^ 2 + (spherePosition n i).y ^ 2 +
      (spherePosition n i).z ^ 2) = 900 ∧
    (sphereTransform n i).lookTarget =
      some ⟨(spherePosition n i).x * 2, (spherePosition n i).y * 2,
            (spherePosition n i).z * 2⟩ := by
  constructor
  · have key : (spherePosition n i).x ^ 2 + (spherePosition n i).y ^ 2 +
        (spherePosition n i).z ^ 2 = 900 ^ 2 := by
      have h1 := Real.sin_sq_add_cos_sq (sphereTheta n i)
      have h2 := Real.sin_sq_add_cos_sq (spherePhi n i)
      simp only [spherePosition]
      nlinarith [h1, h2]
    rw [key]
    exact Real.sqrt_sq (by norm_num)
  · rfl

/-! ## Claim C3 -/

/-- C3 counterexample: for a single record (`n = 1`, index 0) the computed
inclination is `acos(-1) = pi`, not the claimed `phi = 0`. -/
theorem claim_C3_counterexample : spherePhi 1 0 = Real.pi ∧ Real.pi ≠ 0 := by
  constructor
  · unfold spherePhi
    norm_num [Real.arccos_neg_one]
  · exact Real.pi_ne_zero

/-- C3 amended: the sphere layout does not crash for record counts at most
one (for zero records it is the empty target set, and for one record no
division by zero is evaluated), and the single-record case is the
degenerate limit `phi = pi`, `theta = sqrt(pi)*pi`, placing the record at
the `phi = pi` pole `(0, 0, -900)` of the radius-900 sphere. -/
theorem claim_C3_sphere_degenerate :
    calculateSphereLayout ([] : List Unit) = [] ∧
    spherePhi 1 0 = Real.pi ∧
    sphereTheta 1 0 = Real.sqrt Real.pi * Real.pi ∧
    spherePosition 1 0 = ⟨0, 0, -900⟩ := by
  have hphi : spherePhi 1 0 = Real.pi := by
    unfold spherePhi
    norm_num [Real.arccos_neg_one]
  refine ⟨rfl, hphi, ?_, ?_⟩
  · unfold sphereTheta
    rw [hphi]
    norm_num
  · unfold spherePosition
    rw [hphi]
    simp only [Vec3.mk.injEq, Real.sin_pi, Real.cos_pi]
    norm_num

/-! ## Claim C1 -/

theorem transformLoop_spec (r : ℕ → ℝ) (d : ℝ) (i : ℕ) (objects : List Obj)
    (targets : List Transform) :
    ((transformLoop r d i objects targets).2 = true ↔
      targets.length < objects.length) ∧
    (transformLoop r d i objects targets).1.length =
      if targets.length < objects.length then 2 * targets.length
      else 2 * objects.length := by
  induction objects generalizing i targets with
  | nil => simp [transformLoop]
  | cons o objs ih =>
      cases targets with
      | nil => simp [transformLoop]
      | cons t tgts =>
          have h := ih (i + 1) tgts
          constructor
          · simp only [transformLoop, List.length_cons]
            rw [h.1]
            omega
          · simp only [transformLoop, List.length_cons]
            rw [h.2]
            by_cases hlt : tgts.length < objs.length
            · simp [hlt]
              omega
            · simp [hlt]
              omega

/-- C1 counterexample: a transform call with three managed objects and two
targets (mismatched lengths) does abort with a thrown error, but two
position and two rotation interpolations for the first two index pairs are
already scheduled when it throws, contradicting that no interpolation is
scheduled. -/
theorem claim_C1_counterexample :
    (transformRun zeroStream [obj0, obj0, obj0] [target0, target0] 2000).errored
      = true ∧
    (transformRun zeroStream [obj0, obj0, obj0] [target0, target0] 2000).tweens.length
      = 4 := by
  constructor <;>
    simp [transformRun, transformLoop]

/-- C1 amended: a transform call aborts with a thrown error (undefined
target access) exactly when the managed-object array is strictly longer
than the target array; in that case the position and rotation
interpolations of every preceding index pair (two per pair) are already
scheduled and the render-driver interpolation is not, while in the
non-erroring case every pair is scheduled plus the driver; in all cases the
live transforms of the managed objects are left unchanged by the call
itself. -/
theorem claim_C1_transform_mismatch (r : ℕ → ℝ) (d : ℝ) (objects : List Obj)
    (targets : List Transform) :
    ((transformRun r objects targets d).errored = true ↔
      targets.length < objects.length) ∧
    (transformRun r objects targets d).tweens.length =
      (if targets.length < objects.length then 2 * targets.length
       else 2 * objects.length + 1) ∧
    (transformRun r objects targets d).objects = objects := by
  have h := transformLoop_spec r d 0 objects targets
  unfold transformRun
  by_cases hlt : targets.length < objects.length
  · have he : (transformLoop r d 0 objects targets).2 = true := h.1.mpr hlt
    refine ⟨?_, ?_, ?_⟩
    · simp [he, hlt]
    · simp only [he, if_true, hlt]
      rw [h.2]
      simp [hlt]
    · simp [he]
  · have he : (transformLoop r d 0 objects targets).2 = false := by
      cases hb : (transformLoop r d 0 objects targets).2
      · rfl
      · exact absurd (h.1.mp hb) hlt
    refine ⟨?_, ?_, ?_⟩
    · simp [he, hlt]
    · simp only [he, Bool.false_eq_true, if_false, hlt, List.length_append,
        List.length_cons, List.length_nil]
      rw [h.2]
      simp [hlt]
    · simp [he]

/-! ## Claim C2 -/

/-- C10: when every random draw lies in `[0, 1)`, createObjects gives every
newly created managed object an initial position with each coordinate in
`[-2000, 2000)`, leaves the recorded active layout untouched, and always
invokes the transition to the table target set with base duration 2000. -/
theorem claim_C10_create_objects (α : Type) (r rt : ℕ → ℝ) (data : List α)
    (st : AppState) (h : ∀ k, 0 ≤ r k ∧ r k < 1) :
    (∀ o ∈ ((createObjects r rt data st).1).objects,
        (-2000 ≤ o.position.x ∧ o.position.x < 2000) ∧
        (-2000 ≤ o.position.y ∧ o.position.y < 2000) ∧
        (-2000 ≤ o.position.z ∧ o.position.z < 2000)) ∧
    ((createObjects r rt data st).1).lastCall =
      some ((calculateLayouts data).table, 2000) ∧
    ((createObjects r rt data st).1).currentLayout = st.currentLayout := by
  refine ⟨?_, rfl, rfl⟩
  intro o ho
  have hmem : ∃ i a, o = (fun (i : ℕ) (_ : α) => Obj.mk
      ⟨r (3 * i) * 4000 - 2000, r (3 * i + 1) * 4000 - 2000,
       r (3 * i + 2) * 4000 - 2000⟩ ⟨0, 0, 0⟩) i a := by
    exact mapWithIndexAux_mem _ 0 data o ho
  obtain ⟨i, a, rfl⟩ := hmem
  have b1 := h (3 * i)
  have b2 := h (3 * i + 1)
  have b3 := h (3 * i + 2)
  refine ⟨⟨?_, ?_⟩, ⟨?_, ?_⟩, ⟨?_, ?_⟩⟩ <;> simp <;> nlinarith [b1.1, b1.2, b2.1, b2.2, b3.1, b3.2]

/-- Witness for C10 at the zero random stream and a one-record sequence. -/
theorem claim_C10_witness :
    (∀ o ∈ ((createObjects zeroStream zeroStream [()] emptyState).1).objects,
        (-2000 ≤ o.position.x ∧ o.position.x < 2000) ∧
        (-2000 ≤ o.position.y ∧ o.position.y < 2000) ∧
        (-2000 ≤ o.position.z ∧ o.position.z < 2000)) ∧
    ((createObjects zeroStream zeroStream [()] emptyState).1).lastCall =
      some ((calculateLayouts [()]).table, 2000) ∧
    ((createObjects zeroStream zeroStream [()] emptyState).1).currentLayout =
      emptyState.currentLayout :=
  claim_C10_create_objects Unit zeroStream zeroStream [()] emptyState
    (fun _ => by simp [zeroStream])
